import Mathlib

/-!
Shallow embedding of `src/firmware/lib/rollback_index.c` (the anti-rollback
core of the verified-boot firmware).  The TPM command layer (`tlcl`) is the
external collaborator: we model the TPM as an oracle, a list of responses
consumed one per issued command, and we record every issued command in a
trace.  Each C function becomes a Lean function threading a `RunState`
(remaining oracle, trace so far, and the process-wide recovery-mode flag).
The C file's `RETURN_ON_FAILURE` macro becomes an explicit early-return
combinator, as does the issue-one-command-and-check pattern (`tlclStep`).
-/

namespace Rollback

/-- Modelled from the spec (§6): success status of every TPM command is zero. -/
def TPM_SUCCESS : Nat := 0

/-- Modelled from the spec (§6): the distinguished "bad index" code a read of
an undefined space returns.  Its numeric value is opaque (the constant's
header is not part of src/); only nonzeroness and distinctness matter. -/
def TPM_E_BADINDEX : Nat := 2

/-- Modelled from the spec (§6): the distinguished "max NV writes exceeded"
code.  Numeric value opaque, nonzero and distinct from the others. -/
def TPM_E_MAXNVWRITES : Nat := 72

/-- Modelled from the spec (§6): the MustReboot code the core surfaces. -/
def TPM_E_MUST_REBOOT : Nat := 20481

/-- Modelled from the spec (§6): the AlreadyInitialized code. -/
def TPM_E_ALREADY_INITIALIZED : Nat := 20482

/-- Modelled from the spec (§6): the CorruptedState code. -/
def TPM_E_CORRUPTED_STATE : Nat := 20483

/-- Modelled from the spec (§6): the InternalInconsistency code. -/
def TPM_E_INTERNAL_INCONSISTENCY : Nat := 20484

/-- Modelled from the spec (§3): the physical-presence-write permission bit. -/
def TPM_NV_PER_PPWRITE : Nat := 1

/-- Modelled from the spec (§3): the global-lock permission bit. -/
def TPM_NV_PER_GLOBALLOCK : Nat := 16384

/-- Modelled from the spec (§3): NVRAM space index of FIRMWARE_VERSIONS. -/
def FIRMWARE_VERSIONS_NV_INDEX : Nat := 4097

/-- Modelled from the spec (§3): NVRAM space index of KERNEL_VERSIONS. -/
def KERNEL_VERSIONS_NV_INDEX : Nat := 4098

/-- Modelled from the spec (§3): NVRAM space index of KERNEL_VERSIONS_BACKUP. -/
def KERNEL_VERSIONS_BACKUP_NV_INDEX : Nat := 4099

/-- Modelled from the spec (§3): NVRAM space index of KERNEL_MUST_USE_BACKUP. -/
def KERNEL_MUST_USE_BACKUP_NV_INDEX : Nat := 4100

/-- Modelled from the spec (§3): NVRAM space index of DEVELOPER_MODE. -/
def DEVELOPER_MODE_NV_INDEX : Nat := 4101

/-- Modelled from the spec (§3): NVRAM space index of TPM_IS_INITIALIZED. -/
def TPM_IS_INITIALIZED_NV_INDEX : Nat := 4102

/-- Modelled from the spec (§6): the fixed UID tag byte string stored after the
4-byte kernel counter (a compile-time constant; its exact bytes are opaque). -/
def KERNEL_SPACE_UID : List Nat := [71, 82, 87, 76]

/-- Modelled from the spec (§6): number of UID tag bytes. -/
def KERNEL_SPACE_UID_SIZE : Nat := 4

/-- Modelled from the spec (§3): size of the KERNEL_VERSIONS space, a 4-byte
counter followed by the UID tag. -/
def KERNEL_SPACE_SIZE : Nat := 8

/-- Modelled from the spec (§4.C): initial contents of KERNEL_VERSIONS, a zero
counter followed by the UID tag. -/
def KERNEL_SPACE_INIT_DATA : List Nat := [0, 0, 0, 0] ++ KERNEL_SPACE_UID

/-- A TPM command as issued by the core, recorded in the trace. -/
inductive TpmOp where
  | libInit : TpmOp
  | startup : TpmOp
  | continueSelfTest : TpmOp
  | assertPhysicalPresence : TpmOp
  | getFlags : TpmOp
  | setEnable : TpmOp
  | setDeactivated (flag : Nat) : TpmOp
  | forceClear : TpmOp
  | setNvLocked : TpmOp
  | defineSpace (index perm size : Nat) : TpmOp
  | write (index : Nat) (data : List Nat) (length : Nat) : TpmOp
  | read (index length : Nat) : TpmOp
  | getPermissions (index : Nat) : TpmOp
  | setGlobalLock : TpmOp
  | lockPhysicalPresence : TpmOp
  deriving DecidableEq

/-- A TPM response: status code, read data (bytes), permissions, and the two
flag bytes GetFlags reports. -/
structure Resp where
  code : Nat
  data : List Nat
  perms : Nat
  disable : Nat
  deactivated : Nat
  deriving DecidableEq

/-- The state threaded through the embedded code: the oracle of pending TPM
responses, the trace of commands issued so far, and the process-wide global
`g_rollback_recovery_mode` of the C file. -/
structure RunState where
  oracle : List Resp
  trace : List TpmOp
  g_rollback_recovery_mode : Nat
  deriving DecidableEq

/-- Head response of the oracle (an exhausted oracle answers success/zeros). -/
def respHead : List Resp → Resp
  | [] => Resp.mk 0 [] 0 0 0
  | r :: _ => r

/-- Issue one TPM command: record it in the trace and consume one response. -/
def tlclCall (op : TpmOp) (s : RunState) : Resp × RunState :=
  (respHead s.oracle,
   RunState.mk s.oracle.tail (s.trace ++ [op]) s.g_rollback_recovery_mode)

/-- An action of the embedded code: status code and next state. -/
abbrev Act := RunState → Nat × RunState

/-- The C file's `RETURN_ON_FAILURE` macro around a helper call: run `f`; a
non-success status returns at once, a success continues with `k`. -/
def RETURN_ON_FAILURE (f : Act) (k : Act) : Act := fun s =>
  let t := f s
  if t.1 ≠ TPM_SUCCESS then t else k t.2

/-- The `RETURN_ON_FAILURE(TlclSomething(...))` pattern: issue one TPM command;
a non-success status returns at once, a success hands the response to `k`. -/
def tlclStep (op : TpmOp) (k : Resp → Act) : Act := fun s =>
  let t := tlclCall op s
  if t.1.code ≠ TPM_SUCCESS then (t.1.code, t.2) else k t.1 t.2

/-- The trailing `return TPM_SUCCESS` of the C functions. -/
def retSuccess : Act := fun s => (TPM_SUCCESS, s)

/-- Byte `i` of a raw memory buffer (a machine byte, hence reduced mod 256). -/
def byteAt (bs : List Nat) (i : Nat) : Nat := bs.getD i 0 % 256

/-- The uint32 a 4-byte buffer holds (the same, fixed byte order is used for
reading and writing, matching the raw-memory copies of the C code). -/
def leU32 (bs : List Nat) : Nat :=
  byteAt bs 0 + 256 * byteAt bs 1 + 65536 * byteAt bs 2 + 16777216 * byteAt bs 3

/-- The 4 raw bytes of a uint32 value. -/
def u32bytes (n : Nat) : List Nat :=
  [n % 256, n / 256 % 256, n / 65536 % 256, n / 16777216 % 256]

/-- Result of `Memcmp(buffer + 4, KERNEL_SPACE_UID, KERNEL_SPACE_UID_SIZE) == 0`:
true iff the UID tag bytes stored after the 4-byte counter equal the constant. -/
def uidMatch (buf : List Nat) : Bool :=
  (List.range KERNEL_SPACE_UID_SIZE).all
    (fun i => byteAt buf (4 + i) == KERNEL_SPACE_UID.getD i 0)

/-- Embeds `TPMClearAndReenable` (rollback_index.c:27): ForceClear, SetEnable,
SetDeactivated(0), each guarded by RETURN_ON_FAILURE. -/
def TPMClearAndReenable : Act :=
  tlclStep TpmOp.forceClear fun _ =>
  tlclStep TpmOp.setEnable fun _ =>
  tlclStep (TpmOp.setDeactivated 0) fun _ =>
  retSuccess

/-- Embeds `SafeWrite` (rollback_index.c:39): like TlclWrite, but on the
MaxNVWrites code clears the TPM and retries the write once. -/
def SafeWrite (index : Nat) (data : List Nat) (length : Nat) : Act := fun s =>
  let t := tlclCall (TpmOp.write index data length) s
  if t.1.code = TPM_E_MAXNVWRITES then
    RETURN_ON_FAILURE TPMClearAndReenable
      (fun s2 =>
        let t2 := tlclCall (TpmOp.write index data length) s2
        (t2.1.code, t2.2))
      t.2
  else (t.1.code, t.2)

/-- Embeds `InitializeKernelVersionsSpaces` (rollback_index.c:49). -/
def InitializeKernelVersionsSpaces : Act :=
  tlclStep (TpmOp.defineSpace KERNEL_VERSIONS_NV_INDEX
              TPM_NV_PER_PPWRITE KERNEL_SPACE_SIZE) fun _ =>
  RETURN_ON_FAILURE
    (SafeWrite KERNEL_VERSIONS_NV_INDEX KERNEL_SPACE_INIT_DATA KERNEL_SPACE_SIZE)
  retSuccess

/-- Embeds `GetSpacesInitialized` (rollback_index.c:61): the int* out-parameter
becomes an in/out value, returned alongside the status. -/
def GetSpacesInitialized (initialized : Nat) (s : RunState) :
    (Nat × Nat) × RunState :=
  let t := tlclCall (TpmOp.read TPM_IS_INITIALIZED_NV_INDEX 4) s
  if t.1.code = TPM_SUCCESS then ((TPM_SUCCESS, 1), t.2)
  else if t.1.code = TPM_E_BADINDEX then ((TPM_SUCCESS, 0), t.2)
  else ((t.1.code, initialized), t.2)

/-- The permission value `firmware_perm` of rollback_index.c:82. -/
def firmwarePerm : Nat := TPM_NV_PER_GLOBALLOCK ||| TPM_NV_PER_PPWRITE

/-- Embeds `InitializeSpaces` (rollback_index.c:80). -/
def InitializeSpaces : Act :=
  tlclStep TpmOp.setNvLocked fun _ =>
  tlclStep (TpmOp.defineSpace FIRMWARE_VERSIONS_NV_INDEX firmwarePerm 4) fun _ =>
  RETURN_ON_FAILURE (SafeWrite FIRMWARE_VERSIONS_NV_INDEX (u32bytes 0) 4) <|
  RETURN_ON_FAILURE InitializeKernelVersionsSpaces <|
  tlclStep (TpmOp.defineSpace KERNEL_VERSIONS_BACKUP_NV_INDEX firmwarePerm 4)
    fun _ =>
  RETURN_ON_FAILURE (SafeWrite KERNEL_VERSIONS_BACKUP_NV_INDEX (u32bytes 0) 4) <|
  tlclStep (TpmOp.defineSpace KERNEL_MUST_USE_BACKUP_NV_INDEX firmwarePerm 4)
    fun _ =>
  RETURN_ON_FAILURE (SafeWrite KERNEL_MUST_USE_BACKUP_NV_INDEX (u32bytes 0) 4) <|
  tlclStep (TpmOp.defineSpace DEVELOPER_MODE_NV_INDEX firmwarePerm 4) fun _ =>
  RETURN_ON_FAILURE (SafeWrite DEVELOPER_MODE_NV_INDEX (u32bytes 0) 4) <|
  tlclStep (TpmOp.defineSpace TPM_IS_INITIALIZED_NV_INDEX firmwarePerm 4) fun _ =>
  retSuccess

/-- Embeds `SetDistrustKernelSpaceAtNextBoot` (rollback_index.c:122). -/
def SetDistrustKernelSpaceAtNextBoot (distrust : Nat) : Act :=
  tlclStep (TpmOp.read KERNEL_MUST_USE_BACKUP_NV_INDEX 4) fun r s =>
  if leU32 r.data ≠ distrust then
    RETURN_ON_FAILURE
      (SafeWrite KERNEL_MUST_USE_BACKUP_NV_INDEX (u32bytes distrust) 4)
      retSuccess s
  else retSuccess s

/-- Embeds `RecoverKernelSpace` (rollback_index.c:136).  Note the source's
condition `!Memcmp(buffer + sizeof(uint32_t), KERNEL_SPACE_UID, ...)`:
`Memcmp` returns zero exactly on equal bytes, so `!Memcmp(...)` is true when
the tag bytes EQUAL the constant, and that is what is embedded here.  Note
also that the final SafeWrite passes length 0, as the source does. -/
def RecoverKernelSpace : Act :=
  tlclStep (TpmOp.read KERNEL_MUST_USE_BACKUP_NV_INDEX 4) fun rm =>
  tlclStep (TpmOp.read KERNEL_VERSIONS_NV_INDEX KERNEL_SPACE_SIZE) fun rk =>
  tlclStep (TpmOp.getPermissions KERNEL_VERSIONS_NV_INDEX) fun rp s =>
  if rp.perms ≠ TPM_NV_PER_PPWRITE ∨ uidMatch rk.data = true then
    (TPM_E_CORRUPTED_STATE, s)
  else if leU32 rm.data ≠ 0 then
    (tlclStep (TpmOp.read KERNEL_VERSIONS_BACKUP_NV_INDEX 4) fun rb =>
     RETURN_ON_FAILURE
       (SafeWrite KERNEL_VERSIONS_NV_INDEX (u32bytes (leU32 rb.data)) 4) <|
     RETURN_ON_FAILURE
       (SafeWrite KERNEL_MUST_USE_BACKUP_NV_INDEX (u32bytes 0) 0)
     retSuccess) s
  else retSuccess s

/-- Embeds `BackupKernelSpace` (rollback_index.c:178). -/
def BackupKernelSpace : Act :=
  tlclStep (TpmOp.read KERNEL_VERSIONS_NV_INDEX 4) fun rk =>
  tlclStep (TpmOp.read KERNEL_VERSIONS_BACKUP_NV_INDEX 4) fun rb s =>
  if leU32 rk.data = leU32 rb.data then (TPM_SUCCESS, s)
  else if leU32 rk.data < leU32 rb.data then (TPM_E_INTERNAL_INCONSISTENCY, s)
  else
    RETURN_ON_FAILURE
      (SafeWrite KERNEL_VERSIONS_BACKUP_NV_INDEX (u32bytes (leU32 rk.data)) 4)
      retSuccess s

/-- Embeds `CheckDeveloperModeTransition` (rollback_index.c:199). -/
def CheckDeveloperModeTransition (current_developer : Nat) : Act :=
  tlclStep (TpmOp.read DEVELOPER_MODE_NV_INDEX 4) fun r s =>
  if leU32 r.data ≠ current_developer then
    RETURN_ON_FAILURE TPMClearAndReenable
      (RETURN_ON_FAILURE
        (SafeWrite DEVELOPER_MODE_NV_INDEX (u32bytes current_developer) 4)
        retSuccess) s
  else retSuccess s

/-- The tail of `SetupTPM` that both fall-through paths of
rollback_index.c:261-269 execute once kernel-space recovery has succeeded:
backup, distrust flag, developer-mode check, then setting the recovery-mode
global before the final `return TPM_SUCCESS`. -/
def SetupTPMTail (recovery_mode developer_mode : Nat) : Act :=
  RETURN_ON_FAILURE BackupKernelSpace <|
  RETURN_ON_FAILURE (SetDistrustKernelSpaceAtNextBoot recovery_mode) <|
  RETURN_ON_FAILURE (CheckDeveloperModeTransition developer_mode) <|
  fun s =>
    if recovery_mode ≠ 0 then
      (TPM_SUCCESS, RunState.mk s.oracle s.trace 1)
    else (TPM_SUCCESS, s)

/-- The recover-or-provision region of `SetupTPM` (rollback_index.c:248-263):
attempt RecoverKernelSpace; on failure consult GetSpacesInitialized and either
give up (AlreadyInitialized) or provision the spaces and recover again; then
run the common tail. -/
def SetupTPMRecover (recovery_mode developer_mode : Nat) : Act := fun s2 =>
  let r := RecoverKernelSpace s2
  if r.1 ≠ TPM_SUCCESS then
    let gi := GetSpacesInitialized 0 r.2
    if gi.1.1 ≠ TPM_SUCCESS then (gi.1.1, gi.2)
    else if gi.1.2 ≠ 0 then (TPM_E_ALREADY_INITIALIZED, gi.2)
    else
      (RETURN_ON_FAILURE InitializeSpaces <|
       RETURN_ON_FAILURE RecoverKernelSpace <|
       SetupTPMTail recovery_mode developer_mode) gi.2
  else SetupTPMTail recovery_mode developer_mode r.2

/-- Embeds `SetupTPM` (rollback_index.c:232).  `TlclLibInit` returns void, so
it records a trace entry without consuming an oracle response. -/
def SetupTPM (recovery_mode developer_mode : Nat) : Act := fun s =>
  (tlclStep TpmOp.startup fun _ =>
   tlclStep TpmOp.continueSelfTest fun _ =>
   tlclStep TpmOp.assertPhysicalPresence fun _ =>
   tlclStep TpmOp.getFlags fun rf s1 =>
   if rf.disable ≠ 0 ∨ rf.deactivated ≠ 0 then
     (tlclStep TpmOp.setEnable fun _ =>
      tlclStep (TpmOp.setDeactivated 0) fun _ s2 =>
      (TPM_E_MUST_REBOOT, s2)) s1
   else SetupTPMRecover recovery_mode developer_mode s1)
  (RunState.mk s.oracle (s.trace ++ [TpmOp.libInit]) s.g_rollback_recovery_mode)

/-- Embeds `RollbackFirmwareSetup` (rollback_index.c:275). -/
def RollbackFirmwareSetup (developer_mode : Nat) : Act :=
  SetupTPM 0 developer_mode

/-- Embeds `RollbackFirmwareRead` (rollback_index.c:279): out-parameters become
in/out values (unchanged when the read fails). -/
def RollbackFirmwareRead (key_version version : Nat) (s : RunState) :
    (Nat × Nat × Nat) × RunState :=
  let t := tlclCall (TpmOp.read FIRMWARE_VERSIONS_NV_INDEX 4) s
  if t.1.code ≠ TPM_SUCCESS then ((t.1.code, key_version, version), t.2) else
  ((TPM_SUCCESS, leU32 t.1.data >>> 16 % 65536, Nat.land (leU32 t.1.data) 65535),
   t.2)

/-- Embeds `RollbackFirmwareWrite` (rollback_index.c:290).  The source computes
`(key_version << 16) & version` with bitwise AND, and that is what is
embedded. -/
def RollbackFirmwareWrite (key_version version : Nat) : Act :=
  SafeWrite FIRMWARE_VERSIONS_NV_INDEX
    (u32bytes (Nat.land (key_version <<< 16) version)) 4

/-- Embeds `RollbackFirmwareLock` (rollback_index.c:297). -/
def RollbackFirmwareLock : Act := fun s =>
  let t := tlclCall TpmOp.setGlobalLock s
  (t.1.code, t.2)

/-- Embeds `RollbackKernelRecovery` (rollback_index.c:301): the SetupTPM status
is discarded; SetGlobalLock runs only outside developer mode. -/
def RollbackKernelRecovery (developer_mode : Nat) : Act := fun s =>
  let u := SetupTPM 1 developer_mode s
  if developer_mode = 0 then
    (tlclStep TpmOp.setGlobalLock fun _ => retSuccess) u.2
  else (TPM_SUCCESS, u.2)

/-- Embeds `RollbackKernelRead` (rollback_index.c:314). -/
def RollbackKernelRead (key_version version : Nat) (s : RunState) :
    (Nat × Nat × Nat) × RunState :=
  if s.g_rollback_recovery_mode ≠ 0 then ((TPM_SUCCESS, 0, 0), s)
  else
    let t := tlclCall (TpmOp.read KERNEL_VERSIONS_NV_INDEX 4) s
    if t.1.code ≠ TPM_SUCCESS then ((t.1.code, key_version, version), t.2) else
    ((TPM_SUCCESS, leU32 t.1.data >>> 16 % 65536, Nat.land (leU32 t.1.data) 65535),
     t.2)

/-- Embeds `RollbackKernelWrite` (rollback_index.c:330): same AND slip as
`RollbackFirmwareWrite`; a no-op success when the recovery-mode flag is set. -/
def RollbackKernelWrite (key_version version : Nat) : Act := fun s =>
  if s.g_rollback_recovery_mode = 0 then
    SafeWrite KERNEL_VERSIONS_NV_INDEX
      (u32bytes (Nat.land (key_version <<< 16) version)) 4 s
  else (TPM_SUCCESS, s)

/-- Embeds `RollbackKernelLock` (rollback_index.c:340). -/
def RollbackKernelLock : Act := fun s =>
  if s.g_rollback_recovery_mode = 0 then
    let t := tlclCall TpmOp.lockPhysicalPresence s
    (t.1.code, t.2)
  else (TPM_SUCCESS, s)



/-- True for a TPM write command (any index). -/
def isWrite : TpmOp → Bool
  | TpmOp.write _ _ _ => true
  | _ => false

/-- Number of TPM write commands in a trace. -/
def writeCount (t : List TpmOp) : Nat := t.countP isWrite

/-- True for a write addressed to index `i`. -/
def writesTo (i : Nat) : TpmOp → Bool
  | TpmOp.write j _ _ => j == i
  | _ => false

/-- True for a DefineSpace addressed to index `i`. -/
def definesSpace (i : Nat) : TpmOp → Bool
  | TpmOp.defineSpace j _ _ => j == i
  | _ => false

/-- Data of the last write to index `i` in a trace, if any. -/
def lastWriteTo (i : Nat) : List TpmOp → Option (List Nat)
  | [] => none
  | op :: rest =>
    match lastWriteTo i rest with
    | some d => some d
    | none =>
      match op with
      | TpmOp.write j d _ => if j = i then some d else none
      | _ => none

/-- The uint32 held by KERNEL_VERSIONS_BACKUP after a trace ran against a
TPM whose backup space held `b` before: the last write to the backup space,
or `b` if the trace never wrote it. -/
def backupValueAfter (b : Nat) (t : List TpmOp) : Nat :=
  match lastWriteTo KERNEL_VERSIONS_BACKUP_NV_INDEX t with
  | some d => leU32 d
  | none => b

/-- A trace fragment that neither writes to nor defines TPM_IS_INITIALIZED. -/
def noTIop (t : List TpmOp) : Prop :=
  ∀ op ∈ t, writesTo TPM_IS_INITIALIZED_NV_INDEX op = false
    ∧ definesSpace TPM_IS_INITIALIZED_NV_INDEX op = false

/-- A trace fragment whose very last command is the DefineSpace of
TPM_IS_INITIALIZED, preceded only by commands that neither write to nor
define that space and among which every command of `need` occurs. -/
def tombAfter (t need : List TpmOp) : Prop :=
  ∃ t0, t = t0 ++ [TpmOp.defineSpace TPM_IS_INITIALIZED_NV_INDEX firmwarePerm 4]
    ∧ noTIop t0
    ∧ ∀ op ∈ need, op ∈ t0

/-! ### Basic facts about the primitive step and the combinators -/

theorem tlclCall_g (op : TpmOp) (s : RunState) :
    (tlclCall op s).2.g_rollback_recovery_mode = s.g_rollback_recovery_mode := rfl

theorem tlclCall_trace (op : TpmOp) (s : RunState) :
    (tlclCall op s).2.trace = s.trace ++ [op] := rfl

theorem retSuccess_g (s : RunState) :
    (retSuccess s).2.g_rollback_recovery_mode = s.g_rollback_recovery_mode := rfl

theorem retSuccess_trace (s : RunState) : (retSuccess s).2.trace = s.trace := rfl

theorem RETURN_ON_FAILURE_g {f k : Act}
    (hf : ∀ s, (f s).2.g_rollback_recovery_mode = s.g_rollback_recovery_mode)
    (hk : ∀ s, (k s).2.g_rollback_recovery_mode = s.g_rollback_recovery_mode)
    (s : RunState) :
    (RETURN_ON_FAILURE f k s).2.g_rollback_recovery_mode
      = s.g_rollback_recovery_mode := by
  unfold RETURN_ON_FAILURE
  dsimp only
  split
  · exact hf s
  · rw [hk, hf]

theorem tlclStep_g {op : TpmOp} {k : Resp → Act}
    (hk : ∀ r s, (k r s).2.g_rollback_recovery_mode = s.g_rollback_recovery_mode)
    (s : RunState) :
    (tlclStep op k s).2.g_rollback_recovery_mode = s.g_rollback_recovery_mode := by
  unfold tlclStep
  dsimp only
  split
  · exact tlclCall_g op s
  · rw [hk, tlclCall_g]

theorem RETURN_ON_FAILURE_mono {f k : Act}
    (hf : ∀ s, s.trace <+: (f s).2.trace)
    (hk : ∀ s, s.trace <+: (k s).2.trace)
    (s : RunState) :
    s.trace <+: (RETURN_ON_FAILURE f k s).2.trace := by
  unfold RETURN_ON_FAILURE
  dsimp only
  split
  · exact hf s
  · exact (hf s).trans (hk (f s).2)

theorem tlclStep_mono {op : TpmOp} {k : Resp → Act}
    (hk : ∀ r s, s.trace <+: (k r s).2.trace)
    (s : RunState) :
    s.trace <+: (tlclStep op k s).2.trace := by
  unfold tlclStep
  dsimp only
  split
  · rw [tlclCall_trace]
    exact List.prefix_append s.trace [op]
  · refine List.IsPrefix.trans ?_ (hk (tlclCall op s).1 (tlclCall op s).2)
    rw [tlclCall_trace]
    exact List.prefix_append s.trace [op]

/-! ### The recovery-mode global is untouched by every helper -/

theorem TPMClearAndReenable_g (s : RunState) :
    (TPMClearAndReenable s).2.g_rollback_recovery_mode
      = s.g_rollback_recovery_mode := by
  unfold TPMClearAndReenable
  exact tlclStep_g (fun _ => tlclStep_g (fun _ => tlclStep_g (fun _ => retSuccess_g))) s

theorem SafeWrite_g (i : Nat) (d : List Nat) (l : Nat) (s : RunState) :
    (SafeWrite i d l s).2.g_rollback_recovery_mode = s.g_rollback_recovery_mode := by
  unfold SafeWrite
  dsimp only
  split
  · rw [RETURN_ON_FAILURE_g TPMClearAndReenable_g (fun s => tlclCall_g _ s),
      tlclCall_g]
  · exact tlclCall_g _ s

theorem InitializeKernelVersionsSpaces_g (s : RunState) :
    (InitializeKernelVersionsSpaces s).2.g_rollback_recovery_mode
      = s.g_rollback_recovery_mode := by
  unfold InitializeKernelVersionsSpaces
  exact tlclStep_g
    (fun _ => RETURN_ON_FAILURE_g (SafeWrite_g _ _ _) retSuccess_g) s

theorem GetSpacesInitialized_g (n : Nat) (s : RunState) :
    (GetSpacesInitialized n s).2.g_rollback_recovery_mode
      = s.g_rollback_recovery_mode := by
  unfold GetSpacesInitialized
  dsimp only
  split
  · exact tlclCall_g _ s
  · split
    · exact tlclCall_g _ s
    · exact tlclCall_g _ s

theorem InitializeSpaces_g (s : RunState) :
    (InitializeSpaces s).2.g_rollback_recovery_mode = s.g_rollback_recovery_mode := by
  unfold InitializeSpaces
  refine tlclStep_g (fun _ => tlclStep_g (fun _ => ?_)) s
  intro s1
  refine RETURN_ON_FAILURE_g (SafeWrite_g _ _ _) ?_ s1
  intro s2
  refine RETURN_ON_FAILURE_g InitializeKernelVersionsSpaces_g ?_ s2
  intro s3
  refine tlclStep_g (fun _ => ?_) s3
  intro s4
  refine RETURN_ON_FAILURE_g (SafeWrite_g _ _ _) ?_ s4
  intro s5
  refine tlclStep_g (fun _ => ?_) s5
  intro s6
  refine RETURN_ON_FAILURE_g (SafeWrite_g _ _ _) ?_ s6
  intro s7
  refine tlclStep_g (fun _ => ?_) s7
  intro s8
  refine RETURN_ON_FAILURE_g (SafeWrite_g _ _ _) ?_ s8
  intro s9
  exact tlclStep_g (fun _ => retSuccess_g) s9

theorem SetDistrustKernelSpaceAtNextBoot_g (n : Nat) (s : RunState) :
    (SetDistrustKernelSpaceAtNextBoot n s).2.g_rollback_recovery_mode
      = s.g_rollback_recovery_mode := by
  unfold SetDistrustKernelSpaceAtNextBoot
  refine tlclStep_g (fun r s1 => ?_) s
  split
  · exact RETURN_ON_FAILURE_g (SafeWrite_g _ _ _) retSuccess_g s1
  · exact retSuccess_g s1

theorem RecoverKernelSpace_g (s : RunState) :
    (RecoverKernelSpace s).2.g_rollback_recovery_mode
      = s.g_rollback_recovery_mode := by
  unfold RecoverKernelSpace
  refine tlclStep_g (fun rm => tlclStep_g (fun rk => tlclStep_g (fun rp s1 => ?_))) s
  split
  · rfl
  · split
    · refine tlclStep_g (fun rb s2 => ?_) s1
      exact RETURN_ON_FAILURE_g (SafeWrite_g _ _ _)
        (RETURN_ON_FAILURE_g (SafeWrite_g _ _ _) retSuccess_g) s2
    · exact retSuccess_g s1

theorem BackupKernelSpace_g (s : RunState) :
    (BackupKernelSpace s).2.g_rollback_recovery_mode
      = s.g_rollback_recovery_mode := by
  unfold BackupKernelSpace
  refine tlclStep_g (fun rk => tlclStep_g (fun rb s1 => ?_)) s
  split
  · rfl
  · split
    · rfl
    · exact RETURN_ON_FAILURE_g (SafeWrite_g _ _ _) retSuccess_g s1

theorem CheckDeveloperModeTransition_g (n : Nat) (s : RunState) :
    (CheckDeveloperModeTransition n s).2.g_rollback_recovery_mode
      = s.g_rollback_recovery_mode := by
  unfold CheckDeveloperModeTransition
  refine tlclStep_g (fun r s1 => ?_) s
  split
  · exact RETURN_ON_FAILURE_g TPMClearAndReenable_g
      (RETURN_ON_FAILURE_g (SafeWrite_g _ _ _) retSuccess_g) s1
  · exact retSuccess_g s1

theorem SetupTPMTail_g0 (d : Nat) (s : RunState) :
    (SetupTPMTail 0 d s).2.g_rollback_recovery_mode
      = s.g_rollback_recovery_mode := by
  unfold SetupTPMTail
  refine RETURN_ON_FAILURE_g BackupKernelSpace_g ?_ s
  refine RETURN_ON_FAILURE_g (SetDistrustKernelSpaceAtNextBoot_g 0) ?_
  refine RETURN_ON_FAILURE_g (CheckDeveloperModeTransition_g d) ?_
  intro s1
  simp

theorem SetupTPMRecover_g0 (d : Nat) (s1 : RunState) :
    (SetupTPMRecover 0 d s1).2.g_rollback_recovery_mode
      = s1.g_rollback_recovery_mode := by
  unfold SetupTPMRecover
  dsimp only
  split
  · split
    · exact GetSpacesInitialized_g 0 _ |>.trans (RecoverKernelSpace_g s1)
    · split
      · exact GetSpacesInitialized_g 0 _ |>.trans (RecoverKernelSpace_g s1)
      · refine Eq.trans
          (RETURN_ON_FAILURE_g InitializeSpaces_g
            (RETURN_ON_FAILURE_g RecoverKernelSpace_g (SetupTPMTail_g0 d)) _) ?_
        exact GetSpacesInitialized_g 0 _ |>.trans (RecoverKernelSpace_g s1)
  · exact (SetupTPMTail_g0 d _).trans (RecoverKernelSpace_g s1)

theorem SetupTPM_g0 (d : Nat) (s : RunState) :
    (SetupTPM 0 d s).2.g_rollback_recovery_mode = s.g_rollback_recovery_mode := by
  unfold SetupTPM
  refine Eq.trans
    (tlclStep_g (fun _ => tlclStep_g (fun _ => tlclStep_g (fun _ =>
      tlclStep_g (fun rf s1 => ?_)))) _) rfl
  split
  · exact tlclStep_g (fun _ => tlclStep_g (fun _ s2 => rfl)) s1
  · exact SetupTPMRecover_g0 d s1




/-! ### Trace lemmas: every action only appends to the trace -/

theorem retSuccess_mono (s : RunState) : s.trace <+: (retSuccess s).2.trace :=
  List.prefix_refl _

theorem TPMClearAndReenable_mono (s : RunState) :
    s.trace <+: (TPMClearAndReenable s).2.trace := by
  unfold TPMClearAndReenable
  exact tlclStep_mono (fun _ => tlclStep_mono (fun _ =>
    tlclStep_mono (fun _ => retSuccess_mono))) s

theorem SafeWrite_mono (i : Nat) (d : List Nat) (l : Nat) (s : RunState) :
    s.trace <+: (SafeWrite i d l s).2.trace := by
  unfold SafeWrite
  dsimp only
  split
  · refine List.IsPrefix.trans ?_
      (RETURN_ON_FAILURE_mono TPMClearAndReenable_mono ?_ _)
    · rw [tlclCall_trace]
      exact List.prefix_append s.trace _
    · intro s2
      rw [tlclCall_trace]
      exact List.prefix_append s2.trace _
  · rw [tlclCall_trace]
    exact List.prefix_append s.trace _

theorem InitializeKernelVersionsSpaces_mono (s : RunState) :
    s.trace <+: (InitializeKernelVersionsSpaces s).2.trace := by
  unfold InitializeKernelVersionsSpaces
  exact tlclStep_mono (fun _ =>
    RETURN_ON_FAILURE_mono (SafeWrite_mono _ _ _) retSuccess_mono) s

theorem GetSpacesInitialized_mono (n : Nat) (s : RunState) :
    s.trace <+: (GetSpacesInitialized n s).2.trace := by
  unfold GetSpacesInitialized
  dsimp only
  split
  · rw [tlclCall_trace]; exact List.prefix_append s.trace _
  · split
    · rw [tlclCall_trace]; exact List.prefix_append s.trace _
    · rw [tlclCall_trace]; exact List.prefix_append s.trace _

theorem InitializeSpaces_mono (s : RunState) :
    s.trace <+: (InitializeSpaces s).2.trace := by
  unfold InitializeSpaces
  refine tlclStep_mono (fun _ => tlclStep_mono (fun _ => ?_)) s
  intro s1
  refine RETURN_ON_FAILURE_mono (SafeWrite_mono _ _ _) ?_ s1
  intro s2
  refine RETURN_ON_FAILURE_mono InitializeKernelVersionsSpaces_mono ?_ s2
  intro s3
  refine tlclStep_mono (fun _ => ?_) s3
  intro s4
  refine RETURN_ON_FAILURE_mono (SafeWrite_mono _ _ _) ?_ s4
  intro s5
  refine tlclStep_mono (fun _ => ?_) s5
  intro s6
  refine RETURN_ON_FAILURE_mono (SafeWrite_mono _ _ _) ?_ s6
  intro s7
  refine tlclStep_mono (fun _ => ?_) s7
  intro s8
  refine RETURN_ON_FAILURE_mono (SafeWrite_mono _ _ _) ?_ s8
  intro s9
  exact tlclStep_mono (fun _ => retSuccess_mono) s9

theorem SetDistrustKernelSpaceAtNextBoot_mono (n : Nat) (s : RunState) :
    s.trace <+: (SetDistrustKernelSpaceAtNextBoot n s).2.trace := by
  unfold SetDistrustKernelSpaceAtNextBoot
  refine tlclStep_mono (fun r s1 => ?_) s
  split
  · exact RETURN_ON_FAILURE_mono (SafeWrite_mono _ _ _) retSuccess_mono s1
  · exact retSuccess_mono s1

theorem RecoverKernelSpace_mono (s : RunState) :
    s.trace <+: (RecoverKernelSpace s).2.trace := by
  unfold RecoverKernelSpace
  refine tlclStep_mono (fun rm => tlclStep_mono (fun rk =>
    tlclStep_mono (fun rp s1 => ?_))) s
  split
  · exact List.prefix_refl _
  · split
    · refine tlclStep_mono (fun rb s2 => ?_) s1
      exact RETURN_ON_FAILURE_mono (SafeWrite_mono _ _ _)
        (RETURN_ON_FAILURE_mono (SafeWrite_mono _ _ _) retSuccess_mono) s2
    · exact retSuccess_mono s1

theorem BackupKernelSpace_mono (s : RunState) :
    s.trace <+: (BackupKernelSpace s).2.trace := by
  unfold BackupKernelSpace
  refine tlclStep_mono (fun rk => tlclStep_mono (fun rb s1 => ?_)) s
  split
  · exact List.prefix_refl _
  · split
    · exact List.prefix_refl _
    · exact RETURN_ON_FAILURE_mono (SafeWrite_mono _ _ _) retSuccess_mono s1

theorem CheckDeveloperModeTransition_mono (n : Nat) (s : RunState) :
    s.trace <+: (CheckDeveloperModeTransition n s).2.trace := by
  unfold CheckDeveloperModeTransition
  refine tlclStep_mono (fun r s1 => ?_) s
  split
  · exact RETURN_ON_FAILURE_mono TPMClearAndReenable_mono
      (RETURN_ON_FAILURE_mono (SafeWrite_mono _ _ _) retSuccess_mono) s1
  · exact retSuccess_mono s1

theorem SetupTPMTail_mono (r d : Nat) (s : RunState) :
    s.trace <+: (SetupTPMTail r d s).2.trace := by
  unfold SetupTPMTail
  refine RETURN_ON_FAILURE_mono BackupKernelSpace_mono ?_ s
  refine RETURN_ON_FAILURE_mono (SetDistrustKernelSpaceAtNextBoot_mono r) ?_
  refine RETURN_ON_FAILURE_mono (CheckDeveloperModeTransition_mono d) ?_
  intro s1
  split
  · exact List.prefix_refl _
  · exact List.prefix_refl _

/-- A successful `tlclStep` puts `op` right after the caller's trace. -/
theorem tlclStep_head {op : TpmOp} {k : Resp → Act}
    (hk : ∀ r s, s.trace <+: (k r s).2.trace) (s : RunState) :
    ∃ t, (tlclStep op k s).2.trace = s.trace ++ op :: t := by
  unfold tlclStep
  dsimp only
  split
  · exact ⟨[], by simp [tlclCall]⟩
  · obtain ⟨u, hu⟩ := hk (tlclCall op s).1 (tlclCall op s).2
    refine ⟨u, ?_⟩
    rw [← hu, tlclCall_trace]
    simp

/-- The first TPM command RecoverKernelSpace issues is always the read of
KERNEL_MUST_USE_BACKUP. -/
theorem RecoverKernelSpace_head (s : RunState) :
    ∃ t, (RecoverKernelSpace s).2.trace
      = s.trace ++ TpmOp.read KERNEL_MUST_USE_BACKUP_NV_INDEX 4 :: t := by
  unfold RecoverKernelSpace
  refine tlclStep_head (fun rm => tlclStep_mono (fun rk =>
    tlclStep_mono (fun rp s1 => ?_))) s
  split
  · exact List.prefix_refl _
  · split
    · refine tlclStep_mono (fun rb s2 => ?_) s1
      exact RETURN_ON_FAILURE_mono (SafeWrite_mono _ _ _)
        (RETURN_ON_FAILURE_mono (SafeWrite_mono _ _ _) retSuccess_mono) s2
    · exact retSuccess_mono s1

/-! ### Characterizations of SafeWrite's trace -/

theorem SafeWrite_delta (i : Nat) (d : List Nat) (l : Nat) (s : RunState) :
    ∃ t, (SafeWrite i d l s).2.trace = s.trace ++ TpmOp.write i d l :: t
      ∧ ∀ op ∈ t, op = TpmOp.write i d l ∨ op = TpmOp.forceClear
          ∨ op = TpmOp.setEnable ∨ op = TpmOp.setDeactivated 0 := by
  unfold SafeWrite RETURN_ON_FAILURE TPMClearAndReenable tlclStep retSuccess
  dsimp only
  repeat' split
  all_goals simp [tlclCall]

/-- A SafeWrite that reports success issued the write as its last command. -/
theorem SafeWrite_success_concat (i : Nat) (d : List Nat) (l : Nat)
    (s : RunState) :
    (SafeWrite i d l s).1 ≠ TPM_SUCCESS
      ∨ ∃ t, (SafeWrite i d l s).2.trace = t ++ [TpmOp.write i d l] := by
  unfold SafeWrite RETURN_ON_FAILURE TPMClearAndReenable tlclStep retSuccess
  dsimp only
  repeat' split
  case isTrue.isFalse.isFalse.isFalse.isFalse =>
    refine Or.inr ⟨s.trace ++ [TpmOp.write i d l, TpmOp.forceClear,
        TpmOp.setEnable, TpmOp.setDeactivated 0], ?_⟩
    simp [tlclCall]
  all_goals simp_all [tlclCall]



/-! ### Arithmetic facts about the uint32 byte codecs -/

theorem leU32_lt (bs : List Nat) : leU32 bs < 4294967296 := by
  have h0 : byteAt bs 0 < 256 := Nat.mod_lt _ (by omega)
  have h1 : byteAt bs 1 < 256 := Nat.mod_lt _ (by omega)
  have h2 : byteAt bs 2 < 256 := Nat.mod_lt _ (by omega)
  have h3 : byteAt bs 3 < 256 := Nat.mod_lt _ (by omega)
  unfold leU32
  omega

theorem leU32_u32bytes (n : Nat) (h : n < 4294967296) :
    leU32 (u32bytes n) = n := by
  simp [leU32, u32bytes, byteAt]
  omega

theorem lastWriteTo_append_write (i : Nat) (l : List TpmOp) (d : List Nat)
    (n : Nat) :
    lastWriteTo i (l ++ [TpmOp.write i d n]) = some d := by
  induction l with
  | nil => simp [lastWriteTo]
  | cons op rest ih => simp [lastWriteTo, ih]

/-! ### C1 -/

/-- C1: the claim fails on the code.  `RollbackFirmwareWrite`
and `RollbackKernelWrite` combine the versions with bitwise AND
(`(key_version << 16) & version`), not OR: on key_version = 1, version = 1
both write the 4-byte value 0 to the TPM, while the combined value of the
claim is `(1 << 16) | 1 = 65537`. -/
theorem RollbackWrite_uses_and_writes_zero :
    (RollbackFirmwareWrite 1 1 (RunState.mk [Resp.mk 0 [] 0 0 0] [] 0)).2.trace
      = [TpmOp.write FIRMWARE_VERSIONS_NV_INDEX (u32bytes 0) 4]
  ∧ (RollbackKernelWrite 1 1 (RunState.mk [Resp.mk 0 [] 0 0 0] [] 0)).2.trace
      = [TpmOp.write KERNEL_VERSIONS_NV_INDEX (u32bytes 0) 4]
  ∧ u32bytes 0 ≠ u32bytes (1 <<< 16 ||| 1) := by decide

/-! ### C2 -/

/-- C2: the claim fails on the code.  With a healthy kernel space (permissions
exactly physical-presence-write, UID tag equal to the constant, reads all
succeeding) `RecoverKernelSpace` returns CorruptedState, and with a wrong UID
tag it proceeds and returns success: `!Memcmp(...)` is true exactly when the
tag bytes are EQUAL, so the corruption test is inverted. -/
theorem RecoverKernelSpace_uid_check_inverted :
    (RecoverKernelSpace (RunState.mk
        [Resp.mk 0 [0, 0, 0, 0] 0 0 0,
         Resp.mk 0 KERNEL_SPACE_INIT_DATA 0 0 0,
         Resp.mk 0 [] TPM_NV_PER_PPWRITE 0 0] [] 0)).1 = TPM_E_CORRUPTED_STATE
  ∧ (RecoverKernelSpace (RunState.mk
        [Resp.mk 0 [0, 0, 0, 0] 0 0 0,
         Resp.mk 0 [0, 0, 0, 0, 1, 2, 3, 4] 0 0 0,
         Resp.mk 0 [] TPM_NV_PER_PPWRITE 0 0] [] 0)).1 = TPM_SUCCESS := by decide

/-! ### C3 -/

/-- C3: the claim fails on the code.  When must_use_backup reads 1 and the
code's validity check passes, RecoverKernelSpace restores the backup value
into KERNEL_VERSIONS, but the final "clear the distrust flag" SafeWrite is
issued with LENGTH 0, not the 4-byte value 0 the claim states. -/
theorem RecoverKernelSpace_clear_has_length_zero :
    (RecoverKernelSpace (RunState.mk
        [Resp.mk 0 [1, 0, 0, 0] 0 0 0,
         Resp.mk 0 [0, 0, 0, 0, 1, 2, 3, 4] 0 0 0,
         Resp.mk 0 [] TPM_NV_PER_PPWRITE 0 0,
         Resp.mk 0 [7, 0, 0, 0] 0 0 0,
         Resp.mk 0 [] 0 0 0,
         Resp.mk 0 [] 0 0 0] [] 0)).2.trace
      = [TpmOp.read KERNEL_MUST_USE_BACKUP_NV_INDEX 4,
         TpmOp.read KERNEL_VERSIONS_NV_INDEX KERNEL_SPACE_SIZE,
         TpmOp.getPermissions KERNEL_VERSIONS_NV_INDEX,
         TpmOp.read KERNEL_VERSIONS_BACKUP_NV_INDEX 4,
         TpmOp.write KERNEL_VERSIONS_NV_INDEX (u32bytes 7) 4,
         TpmOp.write KERNEL_MUST_USE_BACKUP_NV_INDEX (u32bytes 0) 0]
  ∧ (0 : Nat) ≠ 4 := by decide



/-! ### C10 -/

/-- C10: GetSpacesInitialized maps a successful read of TPM_IS_INITIALIZED to
(success, initialized = 1), a BadIndex failure to (success, initialized = 0)
— the BadIndex code is not propagated — and any other failure to that code
with the initialized out-value left unchanged. -/
theorem GetSpacesInitialized_spec (n : Nat) (r : Resp) (rest : List Resp)
    (tr : List TpmOp) (g : Nat) :
    (GetSpacesInitialized n (RunState.mk (r :: rest) tr g)).2
        = RunState.mk rest (tr ++ [TpmOp.read TPM_IS_INITIALIZED_NV_INDEX 4]) g
  ∧ (r.code = TPM_SUCCESS →
      (GetSpacesInitialized n (RunState.mk (r :: rest) tr g)).1 = (TPM_SUCCESS, 1))
  ∧ (r.code = TPM_E_BADINDEX →
      (GetSpacesInitialized n (RunState.mk (r :: rest) tr g)).1 = (TPM_SUCCESS, 0))
  ∧ (r.code ≠ TPM_SUCCESS → r.code ≠ TPM_E_BADINDEX →
      (GetSpacesInitialized n (RunState.mk (r :: rest) tr g)).1 = (r.code, n)) := by
  unfold GetSpacesInitialized tlclCall respHead
  dsimp only
  refine ⟨?_, ?_, ?_, ?_⟩
  · split
    · rfl
    · split
      · rfl
      · rfl
  · intro h
    simp [h]
  · intro h
    simp [h, TPM_E_BADINDEX, TPM_SUCCESS]
  · intro h1 h2
    simp [h1, h2]

/-! ### C6 -/

/-- C6: RollbackKernelRecovery runs SetupTPM(recovery=1, developer=dev) and
discards its status: with dev ≠ 0 it returns success in SetupTPM's final
state with no further TPM command; with dev = 0 its status and state are
exactly those of the SetGlobalLock command issued after SetupTPM.  In neither
case does the returned status depend on SetupTPM's status. -/
theorem RollbackKernelRecovery_spec (dev : Nat) (s : RunState) :
    (dev ≠ 0 → RollbackKernelRecovery dev s = (TPM_SUCCESS, (SetupTPM 1 dev s).2))
  ∧ (dev = 0 →
      RollbackKernelRecovery dev s
        = ((respHead (SetupTPM 1 dev s).2.oracle).code,
           (tlclCall TpmOp.setGlobalLock (SetupTPM 1 dev s).2).2)) := by
  constructor
  · intro h
    unfold RollbackKernelRecovery
    dsimp only
    rw [if_neg h]
  · intro h
    subst h
    unfold RollbackKernelRecovery tlclStep retSuccess
    dsimp only
    rw [if_pos rfl]
    split
    · rfl
    · rename_i hc
      simp only [TPM_SUCCESS, ne_eq, not_not] at hc ⊢
      rw [show (respHead (SetupTPM 1 0 s).2.oracle).code
            = (tlclCall TpmOp.setGlobalLock (SetupTPM 1 0 s).2).1.code from rfl, hc]




/-- The number of write commands SafeWrite issues is at most two: a failing
retry is never retried again. -/
theorem SafeWrite_writeCount (i : Nat) (d : List Nat) (l : Nat) (s : RunState) :
    writeCount (SafeWrite i d l s).2.trace ≤ writeCount s.trace + 2 := by
  unfold SafeWrite RETURN_ON_FAILURE TPMClearAndReenable tlclStep retSuccess
  dsimp only
  repeat' split
  all_goals simp [tlclCall, writeCount, isWrite, List.countP_append, List.countP_cons]

/-! ### C7 -/

/-- C7: when the first TlclWrite reports MaxNVWrites and the clear sequence
succeeds, SafeWrite issues exactly ForceClear, SetEnable, SetDeactivated(0)
and one retry of the same write, and returns the retry's status; when the
first TlclWrite reports anything other than MaxNVWrites, that status is
returned unchanged with no clear and no retry; and in every run at most two
writes are ever issued, so a failing retry is not retried again. -/
theorem SafeWrite_retry_spec (i l : Nat) (d : List Nat) (r1 c1 c2 c3 r2 : Resp)
    (rest rest2 : List Resp) (tr : List TpmOp) (g : Nat)
    (hmax : r1.code = TPM_E_MAXNVWRITES)
    (hc1 : c1.code = TPM_SUCCESS) (hc2 : c2.code = TPM_SUCCESS)
    (hc3 : c3.code = TPM_SUCCESS) :
    SafeWrite i d l (RunState.mk (r1 :: c1 :: c2 :: c3 :: r2 :: rest) tr g)
      = (r2.code,
         RunState.mk rest
           (tr ++ [TpmOp.write i d l, TpmOp.forceClear, TpmOp.setEnable,
                   TpmOp.setDeactivated 0, TpmOp.write i d l]) g)
  ∧ (r2.code ≠ TPM_SUCCESS →
      (SafeWrite i d l (RunState.mk (r1 :: c1 :: c2 :: c3 :: r2 :: rest) tr g)).1
        ≠ TPM_SUCCESS)
  ∧ (∀ r0 : Resp, r0.code ≠ TPM_E_MAXNVWRITES →
      SafeWrite i d l (RunState.mk (r0 :: rest2) tr g)
        = (r0.code, RunState.mk rest2 (tr ++ [TpmOp.write i d l]) g))
  ∧ (∀ s : RunState, writeCount (SafeWrite i d l s).2.trace
        ≤ writeCount s.trace + 2) := by
  have hmain :
      SafeWrite i d l (RunState.mk (r1 :: c1 :: c2 :: c3 :: r2 :: rest) tr g)
        = (r2.code,
           RunState.mk rest
             (tr ++ [TpmOp.write i d l, TpmOp.forceClear, TpmOp.setEnable,
                     TpmOp.setDeactivated 0, TpmOp.write i d l]) g) := by
    unfold SafeWrite RETURN_ON_FAILURE TPMClearAndReenable tlclStep retSuccess
    simp [tlclCall, respHead, hmax, hc1, hc2, hc3, TPM_SUCCESS, TPM_E_MAXNVWRITES]
  refine ⟨hmain, ?_, ?_, fun s => SafeWrite_writeCount i d l s⟩
  · intro h
    rw [hmain]
    exact h
  · intro r0 h
    unfold SafeWrite
    simp [tlclCall, respHead, h]




/-- Witness for C7 at a concrete input: first write reports MaxNVWrites, clear
succeeds, retry reports 7, and SafeWrite returns 7 after exactly one clear
sequence and one retry. -/
theorem SafeWrite_retry_spec_witness :
    SafeWrite 5 [9] 1 (RunState.mk
        [Resp.mk 72 [] 0 0 0, Resp.mk 0 [] 0 0 0, Resp.mk 0 [] 0 0 0,
         Resp.mk 0 [] 0 0 0, Resp.mk 7 [] 0 0 0] [] 0)
      = (7, RunState.mk []
          [TpmOp.write 5 [9] 1, TpmOp.forceClear, TpmOp.setEnable,
           TpmOp.setDeactivated 0, TpmOp.write 5 [9] 1] 0) :=
  (SafeWrite_retry_spec 5 1 [9] (Resp.mk 72 [] 0 0 0) (Resp.mk 0 [] 0 0 0)
    (Resp.mk 0 [] 0 0 0) (Resp.mk 0 [] 0 0 0) (Resp.mk 7 [] 0 0 0) [] [] [] 0
    rfl rfl rfl rfl).1




/-- RETURN_ON_FAILURE propagates "the flag is unchanged or was set to 1 under
condition c" from its continuation. -/
theorem RETURN_ON_FAILURE_gor {f k : Act} {c : Prop}
    (hf : ∀ s, (f s).2.g_rollback_recovery_mode = s.g_rollback_recovery_mode)
    (hk : ∀ s, (k s).2.g_rollback_recovery_mode = s.g_rollback_recovery_mode
          ∨ ((k s).2.g_rollback_recovery_mode = 1 ∧ c))
    (s : RunState) :
    (RETURN_ON_FAILURE f k s).2.g_rollback_recovery_mode
        = s.g_rollback_recovery_mode
      ∨ ((RETURN_ON_FAILURE f k s).2.g_rollback_recovery_mode = 1 ∧ c) := by
  unfold RETURN_ON_FAILURE
  dsimp only
  split
  · exact Or.inl (hf s)
  · rcases hk (f s).2 with h | h
    · exact Or.inl (h.trans (hf s))
    · exact Or.inr h

/-- tlclStep propagates the same disjunction. -/
theorem tlclStep_gor {op : TpmOp} {k : Resp → Act} {c : Prop}
    (hk : ∀ r s, (k r s).2.g_rollback_recovery_mode = s.g_rollback_recovery_mode
          ∨ ((k r s).2.g_rollback_recovery_mode = 1 ∧ c))
    (s : RunState) :
    (tlclStep op k s).2.g_rollback_recovery_mode = s.g_rollback_recovery_mode
      ∨ ((tlclStep op k s).2.g_rollback_recovery_mode = 1 ∧ c) := by
  unfold tlclStep
  dsimp only
  split
  · exact Or.inl (tlclCall_g op s)
  · rcases hk (tlclCall op s).1 (tlclCall op s).2 with h | h
    · exact Or.inl (h.trans (tlclCall_g op s))
    · exact Or.inr h

theorem SetupTPMTail_g_cases (r d : Nat) (s : RunState) :
    (SetupTPMTail r d s).2.g_rollback_recovery_mode = s.g_rollback_recovery_mode
      ∨ ((SetupTPMTail r d s).2.g_rollback_recovery_mode = 1 ∧ r ≠ 0) := by
  unfold SetupTPMTail
  refine RETURN_ON_FAILURE_gor BackupKernelSpace_g
    (fun s1 => RETURN_ON_FAILURE_gor (SetDistrustKernelSpaceAtNextBoot_g r)
      (fun s2 => RETURN_ON_FAILURE_gor (CheckDeveloperModeTransition_g d)
        (fun s3 => ?_) s2) s1) s
  dsimp only
  split
  · rename_i hr
    exact Or.inr ⟨rfl, hr⟩
  · exact Or.inl rfl

theorem SetupTPMRecover_g_cases (r d : Nat) (s1 : RunState) :
    (SetupTPMRecover r d s1).2.g_rollback_recovery_mode
        = s1.g_rollback_recovery_mode
      ∨ ((SetupTPMRecover r d s1).2.g_rollback_recovery_mode = 1 ∧ r ≠ 0) := by
  unfold SetupTPMRecover
  dsimp only
  split
  · split
    · exact Or.inl
        (GetSpacesInitialized_g 0 _ |>.trans (RecoverKernelSpace_g s1))
    · split
      · exact Or.inl
          (GetSpacesInitialized_g 0 _ |>.trans (RecoverKernelSpace_g s1))
      · rcases RETURN_ON_FAILURE_gor InitializeSpaces_g
            (fun s2 => RETURN_ON_FAILURE_gor RecoverKernelSpace_g
              (SetupTPMTail_g_cases r d) s2)
            (GetSpacesInitialized 0 (RecoverKernelSpace s1).2).2 with h | h
        · exact Or.inl (h.trans
            (GetSpacesInitialized_g 0 _ |>.trans (RecoverKernelSpace_g s1)))
        · exact Or.inr h
  · rcases SetupTPMTail_g_cases r d (RecoverKernelSpace s1).2 with h | h
    · exact Or.inl (h.trans (RecoverKernelSpace_g s1))
    · exact Or.inr h

theorem SetupTPM_g_cases (r d : Nat) (s : RunState) :
    (SetupTPM r d s).2.g_rollback_recovery_mode = s.g_rollback_recovery_mode
      ∨ ((SetupTPM r d s).2.g_rollback_recovery_mode = 1 ∧ r ≠ 0) := by
  unfold SetupTPM
  refine tlclStep_gor (fun _ => tlclStep_gor (fun _ => tlclStep_gor (fun _ =>
    tlclStep_gor (fun rf s1 => ?_)))) _
  dsimp only
  split
  · exact Or.inl (tlclStep_g (fun _ => tlclStep_g (fun _ s2 => rfl)) s1)
  · exact SetupTPMRecover_g_cases r d s1

/-! ### C5 -/

/-- C5: with the process-wide recovery-mode flag set, RollbackKernelRead
returns success with outputs (0, 0) and RollbackKernelWrite and
RollbackKernelLock return success, all three leaving the state — oracle,
trace and flag — untouched (no TPM command is issued); and the flag can be
set only by SetupTPM with recovery_mode ≠ 0 (hence only via
RollbackKernelRecovery): SetupTPM either leaves the flag unchanged or sets
it to 1 when recovery_mode ≠ 0, SetupTPM with recovery_mode = 0 and every
other exported entry point leave the flag exactly as it was. -/
theorem recovery_flag_semantics (kv v : Nat) (s : RunState)
    (h : s.g_rollback_recovery_mode ≠ 0) :
    RollbackKernelRead kv v s = ((TPM_SUCCESS, 0, 0), s)
  ∧ RollbackKernelWrite kv v s = (TPM_SUCCESS, s)
  ∧ RollbackKernelLock s = (TPM_SUCCESS, s)
  ∧ (∀ r d s', (SetupTPM r d s').2.g_rollback_recovery_mode
        = s'.g_rollback_recovery_mode
      ∨ ((SetupTPM r d s').2.g_rollback_recovery_mode = 1 ∧ r ≠ 0))
  ∧ (∀ d s', (SetupTPM 0 d s').2.g_rollback_recovery_mode
        = s'.g_rollback_recovery_mode)
  ∧ (∀ d s', (RollbackFirmwareSetup d s').2.g_rollback_recovery_mode
        = s'.g_rollback_recovery_mode)
  ∧ (∀ a b s', ((RollbackFirmwareRead a b s').2.g_rollback_recovery_mode
        = s'.g_rollback_recovery_mode)
      ∧ ((RollbackFirmwareWrite a b s').2.g_rollback_recovery_mode
        = s'.g_rollback_recovery_mode)
      ∧ ((RollbackKernelRead a b s').2.g_rollback_recovery_mode
        = s'.g_rollback_recovery_mode)
      ∧ ((RollbackKernelWrite a b s').2.g_rollback_recovery_mode
        = s'.g_rollback_recovery_mode))
  ∧ (∀ s', ((RollbackFirmwareLock s').2.g_rollback_recovery_mode
        = s'.g_rollback_recovery_mode)
      ∧ ((RollbackKernelLock s').2.g_rollback_recovery_mode
        = s'.g_rollback_recovery_mode)) := by
  refine ⟨?_, ?_, ?_, SetupTPM_g_cases, SetupTPM_g0, SetupTPM_g0, ?_, ?_⟩
  · unfold RollbackKernelRead
    rw [if_pos h]
  · unfold RollbackKernelWrite
    rw [if_neg h]
  · unfold RollbackKernelLock
    rw [if_neg h]
  · intro a b s'
    refine ⟨?_, SafeWrite_g _ _ _ s', ?_, ?_⟩
    · unfold RollbackFirmwareRead
      dsimp only
      split
      · rfl
      · rfl
    · unfold RollbackKernelRead
      dsimp only
      split
      · rfl
      · split
        · rfl
        · rfl
    · unfold RollbackKernelWrite
      split
      · exact SafeWrite_g _ _ _ s'
      · rfl
  · intro s'
    refine ⟨rfl, ?_⟩
    unfold RollbackKernelLock
    dsimp only
    split
    · rfl
    · rfl

/-- Witness for C5 at a concrete state with the flag set. -/
theorem recovery_flag_semantics_witness :
    RollbackKernelRead 3 4 (RunState.mk [] [] 1)
      = ((TPM_SUCCESS, 0, 0), RunState.mk [] [] 1) :=
  (recovery_flag_semantics 3 4 (RunState.mk [] [] 1) (by decide)).1



/-! ### C4 -/

/-- C4: with both counter reads succeeding, BackupKernelSpace is a no-op
success when primary = backup, returns InternalInconsistency without writing
when primary < backup, and otherwise hands the state to a SafeWrite of the
primary value into KERNEL_VERSIONS_BACKUP (so a write of primary is issued);
consequently a successful run leaves the backup value at most the primary. -/
theorem BackupKernelSpace_spec (rk rb : Resp) (rest : List Resp) (g : Nat)
    (hk : rk.code = TPM_SUCCESS) (hb : rb.code = TPM_SUCCESS) :
    (leU32 rk.data = leU32 rb.data →
       BackupKernelSpace (RunState.mk (rk :: rb :: rest) [] g)
         = (TPM_SUCCESS, RunState.mk rest
             [TpmOp.read KERNEL_VERSIONS_NV_INDEX 4,
              TpmOp.read KERNEL_VERSIONS_BACKUP_NV_INDEX 4] g))
  ∧ (leU32 rk.data < leU32 rb.data →
       BackupKernelSpace (RunState.mk (rk :: rb :: rest) [] g)
         = (TPM_E_INTERNAL_INCONSISTENCY, RunState.mk rest
             [TpmOp.read KERNEL_VERSIONS_NV_INDEX 4,
              TpmOp.read KERNEL_VERSIONS_BACKUP_NV_INDEX 4] g))
  ∧ (leU32 rb.data < leU32 rk.data →
       BackupKernelSpace (RunState.mk (rk :: rb :: rest) [] g)
         = RETURN_ON_FAILURE
             (SafeWrite KERNEL_VERSIONS_BACKUP_NV_INDEX
               (u32bytes (leU32 rk.data)) 4) retSuccess
             (RunState.mk rest
               [TpmOp.read KERNEL_VERSIONS_NV_INDEX 4,
                TpmOp.read KERNEL_VERSIONS_BACKUP_NV_INDEX 4] g)
       ∧ TpmOp.write KERNEL_VERSIONS_BACKUP_NV_INDEX
           (u32bytes (leU32 rk.data)) 4
           ∈ (BackupKernelSpace (RunState.mk (rk :: rb :: rest) [] g)).2.trace)
  ∧ ((BackupKernelSpace (RunState.mk (rk :: rb :: rest) [] g)).1 = TPM_SUCCESS →
       backupValueAfter (leU32 rb.data)
           (BackupKernelSpace (RunState.mk (rk :: rb :: rest) [] g)).2.trace
         ≤ leU32 rk.data) := by
  have hred : BackupKernelSpace (RunState.mk (rk :: rb :: rest) [] g)
      = (if leU32 rk.data = leU32 rb.data then
           (TPM_SUCCESS, RunState.mk rest
             [TpmOp.read KERNEL_VERSIONS_NV_INDEX 4,
              TpmOp.read KERNEL_VERSIONS_BACKUP_NV_INDEX 4] g)
         else if leU32 rk.data < leU32 rb.data then
           (TPM_E_INTERNAL_INCONSISTENCY, RunState.mk rest
             [TpmOp.read KERNEL_VERSIONS_NV_INDEX 4,
              TpmOp.read KERNEL_VERSIONS_BACKUP_NV_INDEX 4] g)
         else
           RETURN_ON_FAILURE
             (SafeWrite KERNEL_VERSIONS_BACKUP_NV_INDEX
               (u32bytes (leU32 rk.data)) 4) retSuccess
             (RunState.mk rest
               [TpmOp.read KERNEL_VERSIONS_NV_INDEX 4,
                TpmOp.read KERNEL_VERSIONS_BACKUP_NV_INDEX 4] g)) := by
    unfold BackupKernelSpace tlclStep
    simp [tlclCall, respHead, hk, hb]
  refine ⟨?_, ?_, ?_, ?_⟩
  · intro h
    rw [hred, if_pos h]
  · intro h
    rw [hred, if_neg (Nat.ne_of_lt h), if_pos h]
  · intro h
    have hne : ¬ leU32 rk.data = leU32 rb.data := (Nat.ne_of_lt h).symm
    have hnlt : ¬ leU32 rk.data < leU32 rb.data := Nat.lt_asymm h
    refine ⟨by rw [hred, if_neg hne, if_neg hnlt], ?_⟩
    rw [hred, if_neg hne, if_neg hnlt]
    unfold RETURN_ON_FAILURE retSuccess
    dsimp only
    obtain ⟨t, ht, -⟩ := SafeWrite_delta KERNEL_VERSIONS_BACKUP_NV_INDEX
      (u32bytes (leU32 rk.data)) 4
      (RunState.mk rest
        [TpmOp.read KERNEL_VERSIONS_NV_INDEX 4,
         TpmOp.read KERNEL_VERSIONS_BACKUP_NV_INDEX 4] g)
    split
    · rw [ht]
      simp
    · rw [ht]
      simp
  · intro hsucc
    rcases Nat.lt_trichotomy (leU32 rk.data) (leU32 rb.data) with hlt | heq | hgt
    · rw [hred, if_neg (Nat.ne_of_lt hlt), if_pos hlt] at hsucc
      simp [TPM_E_INTERNAL_INCONSISTENCY, TPM_SUCCESS] at hsucc
    · rw [hred, if_pos heq]
      simp only [backupValueAfter, lastWriteTo]
      exact Nat.le_of_eq heq.symm
    · have hne : ¬ leU32 rk.data = leU32 rb.data := (Nat.ne_of_lt hgt).symm
      have hnlt : ¬ leU32 rk.data < leU32 rb.data := Nat.lt_asymm hgt
      rw [hred, if_neg hne, if_neg hnlt] at hsucc ⊢
      by_cases hw : (SafeWrite KERNEL_VERSIONS_BACKUP_NV_INDEX
          (u32bytes (leU32 rk.data)) 4
          (RunState.mk rest
            [TpmOp.read KERNEL_VERSIONS_NV_INDEX 4,
             TpmOp.read KERNEL_VERSIONS_BACKUP_NV_INDEX 4] g)).1 = TPM_SUCCESS
      · have hstate : (RETURN_ON_FAILURE
            (SafeWrite KERNEL_VERSIONS_BACKUP_NV_INDEX
              (u32bytes (leU32 rk.data)) 4) retSuccess
            (RunState.mk rest
              [TpmOp.read KERNEL_VERSIONS_NV_INDEX 4,
               TpmOp.read KERNEL_VERSIONS_BACKUP_NV_INDEX 4] g)).2
            = (SafeWrite KERNEL_VERSIONS_BACKUP_NV_INDEX
                (u32bytes (leU32 rk.data)) 4
                (RunState.mk rest
                  [TpmOp.read KERNEL_VERSIONS_NV_INDEX 4,
                   TpmOp.read KERNEL_VERSIONS_BACKUP_NV_INDEX 4] g)).2 := by
          unfold RETURN_ON_FAILURE retSuccess
          simp [hw]
        rw [hstate]
        rcases SafeWrite_success_concat KERNEL_VERSIONS_BACKUP_NV_INDEX
            (u32bytes (leU32 rk.data)) 4
            (RunState.mk rest
              [TpmOp.read KERNEL_VERSIONS_NV_INDEX 4,
               TpmOp.read KERNEL_VERSIONS_BACKUP_NV_INDEX 4] g)
          with hfail | ⟨t, ht⟩
        · exact absurd hw hfail
        · rw [ht]
          simp only [backupValueAfter, lastWriteTo_append_write]
          rw [leU32_u32bytes _ (leU32_lt rk.data)]
      · have : (RETURN_ON_FAILURE
            (SafeWrite KERNEL_VERSIONS_BACKUP_NV_INDEX
              (u32bytes (leU32 rk.data)) 4) retSuccess
            (RunState.mk rest
              [TpmOp.read KERNEL_VERSIONS_NV_INDEX 4,
               TpmOp.read KERNEL_VERSIONS_BACKUP_NV_INDEX 4] g)).1
            ≠ TPM_SUCCESS := by
          unfold RETURN_ON_FAILURE retSuccess
          simp only [ne_eq]
          rw [if_pos hw]
          exact hw
        exact absurd hsucc this

/-- Witness for C4 at a concrete input: primary = 5, backup = 3, write
succeeds; the no-op, inconsistency and write clauses are discharged at it. -/
theorem BackupKernelSpace_spec_witness :
    TpmOp.write KERNEL_VERSIONS_BACKUP_NV_INDEX (u32bytes 5) 4
      ∈ (BackupKernelSpace (RunState.mk
          [Resp.mk 0 [5, 0, 0, 0] 0 0 0, Resp.mk 0 [3, 0, 0, 0] 0 0 0,
           Resp.mk 0 [] 0 0 0] [] 0)).2.trace := by
  have h := (BackupKernelSpace_spec (Resp.mk 0 [5, 0, 0, 0] 0 0 0)
    (Resp.mk 0 [3, 0, 0, 0] 0 0 0) [Resp.mk 0 [] 0 0 0] 0 rfl rfl).2.2.1
    (by decide)
  exact h.2



/-- The first TPM command of the recover-or-provision region of SetupTPM is
always RecoverKernelSpace's read of KERNEL_MUST_USE_BACKUP. -/
theorem SetupTPMRecover_head (r d : Nat) (s : RunState) :
    ∃ u, (SetupTPMRecover r d s).2.trace
      = s.trace ++ TpmOp.read KERNEL_MUST_USE_BACKUP_NV_INDEX 4 :: u := by
  unfold SetupTPMRecover
  dsimp only
  obtain ⟨t, ht⟩ := RecoverKernelSpace_head s
  split
  · split
    · obtain ⟨u2, hu2⟩ := GetSpacesInitialized_mono 0 (RecoverKernelSpace s).2
      refine ⟨t ++ u2, ?_⟩
      rw [← hu2, ht]
      simp
    · split
      · obtain ⟨u2, hu2⟩ := GetSpacesInitialized_mono 0 (RecoverKernelSpace s).2
        refine ⟨t ++ u2, ?_⟩
        rw [← hu2, ht]
        simp
      · obtain ⟨u2, hu2⟩ := GetSpacesInitialized_mono 0 (RecoverKernelSpace s).2
        obtain ⟨u3, hu3⟩ :=
          RETURN_ON_FAILURE_mono InitializeSpaces_mono
            (RETURN_ON_FAILURE_mono RecoverKernelSpace_mono
              (SetupTPMTail_mono r d))
            (GetSpacesInitialized 0 (RecoverKernelSpace s).2).2
        refine ⟨t ++ (u2 ++ u3), ?_⟩
        rw [← hu3, ← hu2, ht]
        simp
  · obtain ⟨u2, hu2⟩ := SetupTPMTail_mono r d (RecoverKernelSpace s).2
    refine ⟨t ++ u2, ?_⟩
    rw [← hu2, ht]
    simp

/-! ### C8 -/

/-- C8: when the startup sequence succeeds and GetFlags reports disable or
deactivated set, SetupTPM issues exactly SetEnable then SetDeactivated(0)
and — when both succeed — returns MustReboot having issued no other TPM
command (no recovery, initialization, backup, distrust or developer-mode
step); when neither flag is set, the command following GetFlags is
RecoverKernelSpace's read of KERNEL_MUST_USE_BACKUP, not SetEnable or
SetDeactivated. -/
theorem SetupTPM_flags_spec (r d : Nat) (r1 r2 r3 r4 : Resp)
    (rest : List Resp) (tr : List TpmOp) (g : Nat)
    (h1 : r1.code = TPM_SUCCESS) (h2 : r2.code = TPM_SUCCESS)
    (h3 : r3.code = TPM_SUCCESS) (h4 : r4.code = TPM_SUCCESS) :
    (∀ e1 e2 rest2, rest = e1 :: e2 :: rest2 →
       (r4.disable ≠ 0 ∨ r4.deactivated ≠ 0) →
       e1.code = TPM_SUCCESS → e2.code = TPM_SUCCESS →
       SetupTPM r d (RunState.mk (r1 :: r2 :: r3 :: r4 :: rest) tr g)
         = (TPM_E_MUST_REBOOT,
            RunState.mk rest2
              (tr ++ [TpmOp.libInit, TpmOp.startup, TpmOp.continueSelfTest,
                      TpmOp.assertPhysicalPresence, TpmOp.getFlags,
                      TpmOp.setEnable, TpmOp.setDeactivated 0]) g))
  ∧ (r4.disable = 0 → r4.deactivated = 0 →
       (SetupTPM r d (RunState.mk (r1 :: r2 :: r3 :: r4 :: rest) tr g)).2.trace.take
           (tr.length + 6)
         = tr ++ [TpmOp.libInit, TpmOp.startup, TpmOp.continueSelfTest,
                  TpmOp.assertPhysicalPresence, TpmOp.getFlags,
                  TpmOp.read KERNEL_MUST_USE_BACKUP_NV_INDEX 4]) := by
  have hstep : SetupTPM r d (RunState.mk (r1 :: r2 :: r3 :: r4 :: rest) tr g)
      = (if r4.disable ≠ 0 ∨ r4.deactivated ≠ 0 then
           (tlclStep TpmOp.setEnable fun _ =>
            tlclStep (TpmOp.setDeactivated 0) fun _ s2 =>
            (TPM_E_MUST_REBOOT, s2))
             (RunState.mk rest
               (tr ++ [TpmOp.libInit, TpmOp.startup, TpmOp.continueSelfTest,
                       TpmOp.assertPhysicalPresence, TpmOp.getFlags]) g)
         else
           SetupTPMRecover r d
             (RunState.mk rest
               (tr ++ [TpmOp.libInit, TpmOp.startup, TpmOp.continueSelfTest,
                       TpmOp.assertPhysicalPresence, TpmOp.getFlags]) g)) := by
    unfold SetupTPM tlclStep
    simp [tlclCall, respHead, h1, h2, h3, h4, TPM_SUCCESS]
  constructor
  · intro e1 e2 rest2 hrest hfl he1 he2
    subst hrest
    rw [hstep, if_pos hfl]
    unfold tlclStep
    simp [tlclCall, respHead, he1, he2, TPM_SUCCESS]
  · intro hd ha
    have hnfl : ¬ (r4.disable ≠ 0 ∨ r4.deactivated ≠ 0) := by
      simp [hd, ha]
    rw [hstep, if_neg hnfl]
    obtain ⟨u, hu⟩ := SetupTPMRecover_head r d
      (RunState.mk rest
        (tr ++ [TpmOp.libInit, TpmOp.startup, TpmOp.continueSelfTest,
                TpmOp.assertPhysicalPresence, TpmOp.getFlags]) g)
    rw [hu]
    have hshape :
        (tr ++ [TpmOp.libInit, TpmOp.startup, TpmOp.continueSelfTest,
                TpmOp.assertPhysicalPresence, TpmOp.getFlags])
          ++ TpmOp.read KERNEL_MUST_USE_BACKUP_NV_INDEX 4 :: u
        = (tr ++ [TpmOp.libInit, TpmOp.startup, TpmOp.continueSelfTest,
                  TpmOp.assertPhysicalPresence, TpmOp.getFlags,
                  TpmOp.read KERNEL_MUST_USE_BACKUP_NV_INDEX 4]) ++ u := by
      simp
    rw [hshape]
    exact List.take_left' (by simp)

/-- Witness for C8: concrete oracle with deactivated set; SetupTPM fixes the
flags and reports MustReboot after exactly the seven lifecycle commands. -/
theorem SetupTPM_flags_spec_witness :
    SetupTPM 0 0 (RunState.mk
        [Resp.mk 0 [] 0 0 0, Resp.mk 0 [] 0 0 0, Resp.mk 0 [] 0 0 0,
         Resp.mk 0 [] 0 0 1, Resp.mk 0 [] 0 0 0, Resp.mk 0 [] 0 0 0] [] 0)
      = (TPM_E_MUST_REBOOT,
         RunState.mk []
           [TpmOp.libInit, TpmOp.startup, TpmOp.continueSelfTest,
            TpmOp.assertPhysicalPresence, TpmOp.getFlags,
            TpmOp.setEnable, TpmOp.setDeactivated 0] 0) :=
  (SetupTPM_flags_spec 0 0 (Resp.mk 0 [] 0 0 0) (Resp.mk 0 [] 0 0 0)
    (Resp.mk 0 [] 0 0 0) (Resp.mk 0 [] 0 0 1)
    [Resp.mk 0 [] 0 0 0, Resp.mk 0 [] 0 0 0] [] 0
    rfl rfl rfl rfl).1 (Resp.mk 0 [] 0 0 0) (Resp.mk 0 [] 0 0 0) [] rfl
    (Or.inr (by decide)) rfl rfl



/-- Composition step for the tombstone-ordering proof: one guarded TPM command
in front of a continuation that either never touches TPM_IS_INITIALIZED or
ends with its define, preceded by every command of `need`. -/
theorem stage_tlclStep {op : TpmOp} {k : Resp → Act} {need : List TpmOp}
    (hop : writesTo TPM_IS_INITIALIZED_NV_INDEX op = false
        ∧ definesSpace TPM_IS_INITIALIZED_NV_INDEX op = false)
    (hk : ∀ r s, ∃ t, (k r s).2.trace = s.trace ++ t
          ∧ (noTIop t ∨ tombAfter t need))
    (s : RunState) :
    ∃ t, (tlclStep op k s).2.trace = s.trace ++ t
      ∧ (noTIop t ∨ tombAfter t (op :: need)) := by
  unfold tlclStep
  dsimp only
  split
  · refine ⟨[op], by simp [tlclCall], Or.inl ?_⟩
    intro x hx
    rcases List.mem_singleton.mp hx with rfl
    exact hop
  · obtain ⟨t, ht, hcase⟩ := hk (tlclCall op s).1 (tlclCall op s).2
    refine ⟨op :: t, by rw [ht, tlclCall_trace]; simp, ?_⟩
    rcases hcase with hno | ⟨t0, ht0, hno0, hneed⟩
    · refine Or.inl fun x hx => ?_
      rcases List.mem_cons.mp hx with rfl | hx
      · exact hop
      · exact hno x hx
    · refine Or.inr ⟨op :: t0, by rw [ht0]; simp, ?_, ?_⟩
      · intro x hx
        rcases List.mem_cons.mp hx with rfl | hx
        · exact hop
        · exact hno0 x hx
      · intro x hx
        rcases List.mem_cons.mp hx with rfl | hx
        · exact List.mem_cons_self _ _
        · exact List.mem_cons_of_mem _ (hneed x hx)

/-- Composition step for a RETURN_ON_FAILURE around a helper whose trace never
touches TPM_IS_INITIALIZED and which, on success, has issued every command of
`fneed`. -/
theorem stage_ROF {f next : Act} {fneed need : List TpmOp}
    (hf : ∀ s, ∃ t, (f s).2.trace = s.trace ++ t ∧ noTIop t
          ∧ ((f s).1 = TPM_SUCCESS → ∀ x ∈ fneed, x ∈ t))
    (hnext : ∀ s, ∃ t, (next s).2.trace = s.trace ++ t
          ∧ (noTIop t ∨ tombAfter t need))
    (s : RunState) :
    ∃ t, (RETURN_ON_FAILURE f next s).2.trace = s.trace ++ t
      ∧ (noTIop t ∨ tombAfter t (fneed ++ need)) := by
  unfold RETURN_ON_FAILURE
  dsimp only
  split
  · obtain ⟨t, ht, hno, -⟩ := hf s
    exact ⟨t, ht, Or.inl hno⟩
  · rename_i hsucc
    simp only [ne_eq, not_not] at hsucc
    obtain ⟨t1, ht1, hno1, hmem1⟩ := hf s
    obtain ⟨t2, ht2, hcase⟩ := hnext (f s).2
    refine ⟨t1 ++ t2, by rw [ht2, ht1]; simp, ?_⟩
    rcases hcase with hno2 | ⟨t0, ht0, hno0, hneed⟩
    · refine Or.inl fun x hx => ?_
      rcases List.mem_append.mp hx with hx | hx
      · exact hno1 x hx
      · exact hno2 x hx
    · refine Or.inr ⟨t1 ++ t0, by rw [ht0]; simp, ?_, ?_⟩
      · intro x hx
        rcases List.mem_append.mp hx with hx | hx
        · exact hno1 x hx
        · exact hno0 x hx
      · intro x hx
        rcases List.mem_append.mp hx with hx | hx
        · exact List.mem_append_left _ (hmem1 hsucc x hx)
        · exact List.mem_append_right _ (hneed x hx)

/-- SafeWrite to a space other than TPM_IS_INITIALIZED: its trace never
touches TPM_IS_INITIALIZED and always contains the write itself. -/
theorem SafeWrite_stage (i : Nat)
    (hi : (i == TPM_IS_INITIALIZED_NV_INDEX) = false)
    (d : List Nat) (l : Nat) (s : RunState) :
    ∃ t, (SafeWrite i d l s).2.trace = s.trace ++ t ∧ noTIop t
      ∧ ((SafeWrite i d l s).1 = TPM_SUCCESS →
          ∀ x ∈ [TpmOp.write i d l], x ∈ t) := by
  obtain ⟨t, ht, hall⟩ := SafeWrite_delta i d l s
  refine ⟨TpmOp.write i d l :: t, ht, ?_, ?_⟩
  · intro x hx
    rcases List.mem_cons.mp hx with rfl | hx
    · exact ⟨by simp [writesTo, hi], rfl⟩
    · rcases hall x hx with rfl | rfl | rfl | rfl
      · exact ⟨by simp [writesTo, hi], rfl⟩
      · exact ⟨rfl, rfl⟩
      · exact ⟨rfl, rfl⟩
      · exact ⟨rfl, rfl⟩
  · intro _ x hx
    rcases List.mem_singleton.mp hx with rfl
    exact List.mem_cons_self _ _

/-- InitializeKernelVersionsSpaces: never touches TPM_IS_INITIALIZED, and on
success has both defined and written KERNEL_VERSIONS. -/
theorem InitializeKernelVersionsSpaces_stage (s : RunState) :
    ∃ t, (InitializeKernelVersionsSpaces s).2.trace = s.trace ++ t ∧ noTIop t
      ∧ ((InitializeKernelVersionsSpaces s).1 = TPM_SUCCESS →
          ∀ x ∈ [TpmOp.defineSpace KERNEL_VERSIONS_NV_INDEX TPM_NV_PER_PPWRITE
                   KERNEL_SPACE_SIZE,
                 TpmOp.write KERNEL_VERSIONS_NV_INDEX KERNEL_SPACE_INIT_DATA
                   KERNEL_SPACE_SIZE], x ∈ t) := by
  unfold InitializeKernelVersionsSpaces tlclStep RETURN_ON_FAILURE retSuccess
  dsimp only
  split
  · rename_i hfail
    refine ⟨[TpmOp.defineSpace KERNEL_VERSIONS_NV_INDEX TPM_NV_PER_PPWRITE
        KERNEL_SPACE_SIZE], by simp [tlclCall], ?_, ?_⟩
    · intro x hx
      rcases List.mem_singleton.mp hx with rfl
      exact ⟨rfl, by decide⟩
    · intro habs
      exact absurd habs hfail
  · obtain ⟨tw, htw, hallw⟩ := SafeWrite_delta KERNEL_VERSIONS_NV_INDEX
      KERNEL_SPACE_INIT_DATA KERNEL_SPACE_SIZE
      (tlclCall (TpmOp.defineSpace KERNEL_VERSIONS_NV_INDEX TPM_NV_PER_PPWRITE
        KERNEL_SPACE_SIZE) s).2
    have hnoti : noTIop (TpmOp.defineSpace KERNEL_VERSIONS_NV_INDEX
        TPM_NV_PER_PPWRITE KERNEL_SPACE_SIZE
        :: TpmOp.write KERNEL_VERSIONS_NV_INDEX KERNEL_SPACE_INIT_DATA
             KERNEL_SPACE_SIZE :: tw) := by
      intro x hx
      rcases List.mem_cons.mp hx with rfl | hx
      · exact ⟨rfl, by decide⟩
      rcases List.mem_cons.mp hx with rfl | hx
      · exact ⟨by decide, rfl⟩
      rcases hallw x hx with rfl | rfl | rfl | rfl
      · exact ⟨by decide, rfl⟩
      · exact ⟨rfl, rfl⟩
      · exact ⟨rfl, rfl⟩
      · exact ⟨rfl, rfl⟩
    split
    · refine ⟨TpmOp.defineSpace KERNEL_VERSIONS_NV_INDEX TPM_NV_PER_PPWRITE
          KERNEL_SPACE_SIZE
          :: TpmOp.write KERNEL_VERSIONS_NV_INDEX KERNEL_SPACE_INIT_DATA
               KERNEL_SPACE_SIZE :: tw,
        by rw [htw, tlclCall_trace]; simp, hnoti, ?_⟩
      rename_i hfail
      intro habs
      exact absurd habs hfail
    · refine ⟨TpmOp.defineSpace KERNEL_VERSIONS_NV_INDEX TPM_NV_PER_PPWRITE
          KERNEL_SPACE_SIZE
          :: TpmOp.write KERNEL_VERSIONS_NV_INDEX KERNEL_SPACE_INIT_DATA
               KERNEL_SPACE_SIZE :: tw,
        by rw [htw, tlclCall_trace]; simp, hnoti, ?_⟩
      intro _ x hx
      rcases List.mem_cons.mp hx with rfl | hx
      · exact List.mem_cons_self _ _
      rcases List.mem_singleton.mp hx with rfl
      exact List.mem_cons_of_mem _ (List.mem_cons_self _ _)

/-- The final stage of InitializeSpaces: the lone DefineSpace of
TPM_IS_INITIALIZED, which is issued whether or not it succeeds and is
followed by nothing. -/
theorem tombstone_stage (s : RunState) :
    ∃ t, ((tlclStep (TpmOp.defineSpace TPM_IS_INITIALIZED_NV_INDEX firmwarePerm 4)
            fun _ => retSuccess) s).2.trace = s.trace ++ t
      ∧ (noTIop t ∨ tombAfter t []) := by
  unfold tlclStep retSuccess
  dsimp only
  split
  · exact ⟨[TpmOp.defineSpace TPM_IS_INITIALIZED_NV_INDEX firmwarePerm 4],
      by simp [tlclCall],
      Or.inr ⟨[], rfl, by intro x hx; exact absurd hx (List.not_mem_nil x),
        by intro x hx; exact absurd hx (List.not_mem_nil x)⟩⟩
  · exact ⟨[TpmOp.defineSpace TPM_IS_INITIALIZED_NV_INDEX firmwarePerm 4],
      by simp [tlclCall],
      Or.inr ⟨[], rfl, by intro x hx; exact absurd hx (List.not_mem_nil x),
        by intro x hx; exact absurd hx (List.not_mem_nil x)⟩⟩

/-- The full trace discipline of InitializeSpaces: it never touches
TPM_IS_INITIALIZED except possibly by one final DefineSpace, which can only
happen after every other space's define and initial write appear in the
trace. -/
theorem InitializeSpaces_tomb (s : RunState) :
    ∃ t, (InitializeSpaces s).2.trace = s.trace ++ t
      ∧ (noTIop t ∨ tombAfter t
          [TpmOp.setNvLocked,
           TpmOp.defineSpace FIRMWARE_VERSIONS_NV_INDEX firmwarePerm 4,
           TpmOp.write FIRMWARE_VERSIONS_NV_INDEX (u32bytes 0) 4,
           TpmOp.defineSpace KERNEL_VERSIONS_NV_INDEX TPM_NV_PER_PPWRITE
             KERNEL_SPACE_SIZE,
           TpmOp.write KERNEL_VERSIONS_NV_INDEX KERNEL_SPACE_INIT_DATA
             KERNEL_SPACE_SIZE,
           TpmOp.defineSpace KERNEL_VERSIONS_BACKUP_NV_INDEX firmwarePerm 4,
           TpmOp.write KERNEL_VERSIONS_BACKUP_NV_INDEX (u32bytes 0) 4,
           TpmOp.defineSpace KERNEL_MUST_USE_BACKUP_NV_INDEX firmwarePerm 4,
           TpmOp.write KERNEL_MUST_USE_BACKUP_NV_INDEX (u32bytes 0) 4,
           TpmOp.defineSpace DEVELOPER_MODE_NV_INDEX firmwarePerm 4,
           TpmOp.write DEVELOPER_MODE_NV_INDEX (u32bytes 0) 4]) := by
  unfold InitializeSpaces
  refine stage_tlclStep ⟨?_, ?_⟩ (fun _ =>
    stage_tlclStep ⟨?_, ?_⟩ (fun _ =>
    stage_ROF (SafeWrite_stage _ ?_ _ _) (
    stage_ROF InitializeKernelVersionsSpaces_stage (
    stage_tlclStep ⟨?_, ?_⟩ (fun _ =>
    stage_ROF (SafeWrite_stage _ ?_ _ _) (
    stage_tlclStep ⟨?_, ?_⟩ (fun _ =>
    stage_ROF (SafeWrite_stage _ ?_ _ _) (
    stage_tlclStep ⟨?_, ?_⟩ (fun _ =>
    stage_ROF (SafeWrite_stage _ ?_ _ _)
    tombstone_stage))))))))) s
  all_goals decide

/-! ### C9 -/

/-- C9: in every run of InitializeSpaces, no write to TPM_IS_INITIALIZED is
ever issued, and if the run defines TPM_IS_INITIALIZED at all then that
DefineSpace is the very last TPM command of the run, and the defines and
initial writes of FIRMWARE_VERSIONS, KERNEL_VERSIONS, KERNEL_VERSIONS_BACKUP,
KERNEL_MUST_USE_BACKUP and DEVELOPER_MODE all precede it. -/
theorem InitializeSpaces_tombstone_last (s : RunState) :
    ∃ t, (InitializeSpaces s).2.trace = s.trace ++ t
      ∧ (∀ op ∈ t, writesTo TPM_IS_INITIALIZED_NV_INDEX op = false)
      ∧ ((∀ op ∈ t, definesSpace TPM_IS_INITIALIZED_NV_INDEX op = false)
        ∨ ∃ t0, t = t0
              ++ [TpmOp.defineSpace TPM_IS_INITIALIZED_NV_INDEX firmwarePerm 4]
            ∧ (∀ op ∈ t0, definesSpace TPM_IS_INITIALIZED_NV_INDEX op = false)
            ∧ TpmOp.defineSpace FIRMWARE_VERSIONS_NV_INDEX firmwarePerm 4 ∈ t0
            ∧ TpmOp.write FIRMWARE_VERSIONS_NV_INDEX (u32bytes 0) 4 ∈ t0
            ∧ TpmOp.defineSpace KERNEL_VERSIONS_NV_INDEX TPM_NV_PER_PPWRITE
                KERNEL_SPACE_SIZE ∈ t0
            ∧ TpmOp.write KERNEL_VERSIONS_NV_INDEX KERNEL_SPACE_INIT_DATA
                KERNEL_SPACE_SIZE ∈ t0
            ∧ TpmOp.defineSpace KERNEL_VERSIONS_BACKUP_NV_INDEX firmwarePerm 4
                ∈ t0
            ∧ TpmOp.write KERNEL_VERSIONS_BACKUP_NV_INDEX (u32bytes 0) 4 ∈ t0
            ∧ TpmOp.defineSpace KERNEL_MUST_USE_BACKUP_NV_INDEX firmwarePerm 4
                ∈ t0
            ∧ TpmOp.write KERNEL_MUST_USE_BACKUP_NV_INDEX (u32bytes 0) 4 ∈ t0
            ∧ TpmOp.defineSpace DEVELOPER_MODE_NV_INDEX firmwarePerm 4 ∈ t0
            ∧ TpmOp.write DEVELOPER_MODE_NV_INDEX (u32bytes 0) 4 ∈ t0) := by
  obtain ⟨t, ht, hcase⟩ := InitializeSpaces_tomb s
  refine ⟨t, ht, ?_, ?_⟩
  · rcases hcase with hno | ⟨t0, ht0, hno0, hneed⟩
    · exact fun op hop => (hno op hop).1
    · intro op hop
      rw [ht0] at hop
      rcases List.mem_append.mp hop with hop | hop
      · exact (hno0 op hop).1
      · rcases List.mem_singleton.mp hop with rfl
        rfl
  · rcases hcase with hno | ⟨t0, ht0, hno0, hneed⟩
    · exact Or.inl fun op hop => (hno op hop).2
    · refine Or.inr ⟨t0, ht0, fun op hop => (hno0 op hop).2,
        hneed _ (by simp), hneed _ (by simp), hneed _ (by simp),
        hneed _ (by simp), hneed _ (by simp), hneed _ (by simp),
        hneed _ (by simp), hneed _ (by simp), hneed _ (by simp),
        hneed _ (by simp)⟩


end Rollback
